import Mathlib

/-!
# Radio scanner: scan/lock control loop

A shallow embedding of `radio_scanner_app.c` (Flipper Zero sub-GHz scanner).

Modelling conventions

* `uint32_t` values are `Nat`; every arithmetic result is reduced modulo `2 ^ 32`
  (`u32_add`, `u32_sub`).
* `float` dBm values (`rssi`, `sensitivity`) are rationals.  The program only
  compares them and adds small integer constants, which is exact on finite
  single-precision values of the magnitudes involved; NaN and infinities are
  outside the model.
* The platform radio driver is external.  Its validity check
  `subghz_devices_is_frequency_valid` is a parameter `is_frequency_valid`, the value
  returned by `subghz_devices_get_rssi` on a tick is a parameter `sample`, and the
  frequency last handed to `subghz_devices_set_frequency` is recorded in the
  model-only field `tuned_frequency`.
* The preprocessor symbol `FURI_DEBUG` is a Boolean parameter `furi_debug`.
-/

namespace RadioScanner

/-! ## Constants and tables -/

def RADIO_SCANNER_DEFAULT_FREQ : Nat := 310000000
def RADIO_SCANNER_DEFAULT_RSSI : ℚ := -100
def RADIO_SCANNER_DEFAULT_SENSITIVITY : ℚ := -85

def SUBGHZ_FREQUENCY_MIN : Nat := 300000000
def SUBGHZ_FREQUENCY_MAX : Nat := 928000000
def SUBGHZ_FREQUENCY_STEP : Nat := 10000

/-- The number of values of a `uint32_t`. -/
def UINT32_SIZE : Nat := 4294967296

/-- Addition of two `uint32_t` values. -/
def u32_add (a b : Nat) : Nat := (a + b) % UINT32_SIZE

/-- Subtraction of two `uint32_t` values (wraps below zero). -/
def u32_sub (a b : Nat) : Nat := (a % UINT32_SIZE + (UINT32_SIZE - b % UINT32_SIZE)) % UINT32_SIZE

def freq_presets : List Nat := [310000000, 315000000, 433920000, 868000000, 915000000]
def FREQ_PRESET_COUNT : Nat := 6

def step_presets : List Nat := [10000, 25000, 50000, 100000, 500000, 1000000]
def STEP_PRESET_COUNT : Nat := 6

/-! ## Data model (`radio_scanner_app.h`) -/

inductive ScanDirection where
  | ScanDirectionUp
  | ScanDirectionDown
  deriving DecidableEq, Repr

inductive ModulationType where
  | ModulationOok270
  | ModulationOok650
  | Modulation2FSKDev238
  | Modulation2FSKDev476
  deriving DecidableEq, Repr

open ScanDirection ModulationType

/-- The scan-relevant fields of `RadioScannerApp`.  `radio_device` is `true` when the
device handle is non-NULL; `tuned_frequency` is the device side of the port: the
frequency last passed to `subghz_devices_set_frequency`. -/
structure RadioScannerApp where
  running : Bool
  frequency : Nat
  frequency_step : Nat
  rssi : ℚ
  sensitivity : ℚ
  scanning : Bool
  scan_direction : ScanDirection
  modulation : ModulationType
  radio_device : Bool
  tuned_frequency : Nat
  deriving DecidableEq

/-- Platform input event types. -/
inductive InputType where
  | InputTypePress
  | InputTypeRelease
  | InputTypeShort
  | InputTypeLong
  | InputTypeRepeat
  deriving DecidableEq, Repr

/-- Platform input keys. -/
inductive InputKey where
  | InputKeyUp
  | InputKeyDown
  | InputKeyRight
  | InputKeyLeft
  | InputKeyOk
  | InputKeyBack
  deriving DecidableEq, Repr

open InputType InputKey

structure InputEvent where
  type : InputType
  key : InputKey
  deriving DecidableEq, Repr

/-- One completed edit on the settings list: the item that changed and the value index
the list widget reports (bounded by the `values_count` the item was added with). -/
inductive SettingsEdit where
  | Frequency (index : Fin 6)
  | Modulation (index : Fin 4)
  | Direction (index : Fin 2)
  | Mode (index : Fin 2)
  | Sensitivity (index : Fin 17)
  | StepSize (index : Fin 6)
  deriving DecidableEq

/-! ## Operations -/

/-- `radio_scanner_update_rssi`: store the sampled RSSI, or the default when there is no
device. -/
def radio_scanner_update_rssi (sample : ℚ) (app : RadioScannerApp) : RadioScannerApp :=
  if app.radio_device then
    { app with rssi := sample }
  else
    { app with rssi := RADIO_SCANNER_DEFAULT_RSSI }

/-- `radio_scanner_apply_frequency`: retune the device when there is one and it accepts
the current frequency. -/
def radio_scanner_apply_frequency (is_frequency_valid : Nat → Bool) (app : RadioScannerApp) :
    RadioScannerApp :=
  if app.radio_device && is_frequency_valid app.frequency then
    { app with tuned_frequency := app.frequency }
  else
    app

/-- `frequency_change_callback`. -/
def frequency_change_callback (is_frequency_valid : Nat → Bool) (index : Fin 6)
    (app : RadioScannerApp) : RadioScannerApp :=
  if index.val < FREQ_PRESET_COUNT - 1 then
    radio_scanner_apply_frequency is_frequency_valid
      { app with frequency := freq_presets.getD index.val 0 }
  else
    app

/-- The enum value a modulation index denotes. -/
def modulation_of_index (index : Fin 4) : ModulationType :=
  match index.val with
  | 0 => ModulationOok270
  | 1 => ModulationOok650
  | 2 => Modulation2FSKDev238
  | _ => Modulation2FSKDev476

/-- `modulation_change_callback`. -/
def modulation_change_callback (index : Fin 4) (app : RadioScannerApp) : RadioScannerApp :=
  let app := { app with modulation := modulation_of_index index }
  if app.radio_device then
    { app with tuned_frequency := app.frequency }
  else
    app

/-- `scan_direction_change_callback`. -/
def scan_direction_change_callback (index : Fin 2) (app : RadioScannerApp) : RadioScannerApp :=
  { app with scan_direction := if index.val = 0 then ScanDirectionUp else ScanDirectionDown }

/-- `scanning_change_callback`. -/
def scanning_change_callback (index : Fin 2) (app : RadioScannerApp) : RadioScannerApp :=
  { app with scanning := decide (index.val = 1) }

/-- `sensitivity_change_callback`. -/
def sensitivity_change_callback (index : Fin 17) (app : RadioScannerApp) : RadioScannerApp :=
  { app with sensitivity := -120 + (index.val : ℚ) * 5 }

/-- `step_size_change_callback`. -/
def step_size_change_callback (index : Fin 6) (app : RadioScannerApp) : RadioScannerApp :=
  { app with frequency_step := step_presets.getD index.val 0 }

/-- Dispatch of one settings edit to the callback registered for its item in
`radio_scanner_setup_settings_menu`. -/
def settings_edit (is_frequency_valid : Nat → Bool) (e : SettingsEdit) (app : RadioScannerApp) :
    RadioScannerApp :=
  match e with
  | .Frequency i => frequency_change_callback is_frequency_valid i app
  | .Modulation i => modulation_change_callback i app
  | .Direction i => scan_direction_change_callback i app
  | .Mode i => scanning_change_callback i app
  | .Sensitivity i => sensitivity_change_callback i app
  | .StepSize i => step_size_change_callback i app

/-- The frequency index `radio_scanner_setup_settings_menu` preselects: the loop over the
five table entries with its `break`, then the fall-back to the last ("Custom") index. -/
def radio_scanner_setup_settings_menu_freq_index (app : RadioScannerApp) : Nat :=
  let freq_index :=
    match (List.range (FREQ_PRESET_COUNT - 1)).find?
        (fun i => decide (app.frequency = freq_presets.getD i 0)) with
    | some i => i
    | none => 0
  if freq_index = 0 ∧ app.frequency ≠ freq_presets.getD 0 0 then
    FREQ_PRESET_COUNT - 1
  else
    freq_index

/-- The test `app->rssi > app->sensitivity` of `radio_scanner_process_scanning`. -/
def signal_detected (app : RadioScannerApp) : Bool :=
  decide (app.rssi > app.sensitivity)

/-- The mode transition block of `radio_scanner_process_scanning`. -/
def mode_transition (app : RadioScannerApp) : RadioScannerApp :=
  if signal_detected app then
    if app.scanning then { app with scanning := false } else app
  else
    if !app.scanning then { app with scanning := true } else app

/-- The candidate `new_frequency` of a scan step. -/
def scan_candidate (app : RadioScannerApp) : Nat :=
  if app.scan_direction = ScanDirectionUp then
    u32_add app.frequency SUBGHZ_FREQUENCY_STEP
  else
    u32_sub app.frequency SUBGHZ_FREQUENCY_STEP

/-- The block of `radio_scanner_process_scanning` that moves a candidate the device
rejects to the next valid range. -/
def adjust_frequency (is_frequency_valid : Nat → Bool) (scan_direction : ScanDirection)
    (new_frequency : Nat) : Nat :=
  if !is_frequency_valid new_frequency then
    if scan_direction = ScanDirectionUp then
      if new_frequency < 387000000 then 387000000
      else if new_frequency < 779000000 then 779000000
      else if new_frequency > SUBGHZ_FREQUENCY_MAX then SUBGHZ_FREQUENCY_MIN
      else new_frequency
    else
      if new_frequency > 464000000 then 464000000
      else if new_frequency > 348000000 then 348000000
      else if new_frequency < SUBGHZ_FREQUENCY_MIN then SUBGHZ_FREQUENCY_MAX
      else new_frequency
  else
    new_frequency

/-- `radio_scanner_process_scanning`.  The early `return` for a locked receiver sits
inside `#ifdef FURI_DEBUG`, so it is taken only when `furi_debug` is set. -/
def radio_scanner_process_scanning (furi_debug : Bool) (is_frequency_valid : Nat → Bool)
    (sample : ℚ) (app : RadioScannerApp) : RadioScannerApp :=
  let app := radio_scanner_update_rssi sample app
  let app := mode_transition app
  if !app.scanning && furi_debug then
    app
  else
    let new_frequency := adjust_frequency is_frequency_valid app.scan_direction (scan_candidate app)
    { app with frequency := new_frequency, tuned_frequency := new_frequency }

/-- `radio_scanner_app_alloc`: the defaults of a fresh application. -/
def radio_scanner_app_alloc : RadioScannerApp :=
  { running := true
    frequency := RADIO_SCANNER_DEFAULT_FREQ
    frequency_step := SUBGHZ_FREQUENCY_STEP
    rssi := RADIO_SCANNER_DEFAULT_RSSI
    sensitivity := RADIO_SCANNER_DEFAULT_SENSITIVITY
    scanning := false
    scan_direction := ScanDirectionUp
    modulation := ModulationOok650
    radio_device := false
    tuned_frequency := 0 }

/-- `radio_scanner_init_subghz`: `none` when the device is not found or rejects the
default frequency. -/
def radio_scanner_init_subghz (is_frequency_valid : Nat → Bool) (device_found : Bool)
    (app : RadioScannerApp) : Option RadioScannerApp :=
  if !device_found then
    none
  else
    let app := { app with radio_device := true }
    if !is_frequency_valid app.frequency then
      none
    else
      some { app with tuned_frequency := app.frequency }

/-- The input branch of the main loop of `radio_scanner_app`, for an event taken from the
queue.  `session` lists the edits made while the settings view is open (short OK). -/
def radio_scanner_app_input (is_frequency_valid : Nat → Bool) (session : List SettingsEdit)
    (event : InputEvent) (app : RadioScannerApp) : RadioScannerApp :=
  if event.type = InputTypeShort then
    if event.key = InputKeyOk then
      session.foldl (fun a e => settings_edit is_frequency_valid e a) app
    else if event.key = InputKeyUp then
      { app with sensitivity := app.sensitivity + 1 }
    else if event.key = InputKeyDown then
      { app with sensitivity := app.sensitivity - 1 }
    else if event.key = InputKeyLeft then
      let app := { app with scanning := false }
      let new_frequency := u32_sub app.frequency app.frequency_step
      if is_frequency_valid new_frequency then
        { app with frequency := new_frequency, tuned_frequency := new_frequency }
      else
        app
    else if event.key = InputKeyRight then
      let app := { app with scanning := false }
      let new_frequency := u32_add app.frequency app.frequency_step
      if is_frequency_valid new_frequency then
        { app with frequency := new_frequency, tuned_frequency := new_frequency }
      else
        app
    else if event.key = InputKeyBack then
      { app with running := false }
    else
      app
  else if event.type = InputTypeLong then
    if event.key = InputKeyLeft then
      { app with scan_direction := ScanDirectionDown, scanning := true }
    else if event.key = InputKeyRight then
      { app with scan_direction := ScanDirectionUp, scanning := true }
    else
      app
  else
    app

/-- One iteration of the `while(app->running)` loop of `radio_scanner_app`: the scan tick,
then at most one input event (`none` when the queue read times out). -/
def radio_scanner_app_iteration (furi_debug : Bool) (is_frequency_valid : Nat → Bool)
    (sample : ℚ) (event : Option InputEvent) (session : List SettingsEdit)
    (app : RadioScannerApp) : RadioScannerApp :=
  let app :=
    if app.scanning then
      radio_scanner_process_scanning furi_debug is_frequency_valid sample app
    else
      radio_scanner_update_rssi sample app
  match event with
  | some ev => radio_scanner_app_input is_frequency_valid session ev app
  | none => app

/-- The validity predicate of the built-in CC1101: the three supported bands. -/
def cc1101_bands (f : Nat) : Bool :=
  (decide (300000000 ≤ f) && decide (f ≤ 348000000)) ||
  (decide (387000000 ≤ f) && decide (f ≤ 464000000)) ||
  (decide (779000000 ≤ f) && decide (f ≤ 928000000))

/-- The application as the main loop first sees it: allocated, device found, default
frequency accepted and tuned. -/
def started_app : RadioScannerApp :=
  { radio_scanner_app_alloc with radio_device := true, tuned_frequency := RADIO_SCANNER_DEFAULT_FREQ }

/-- A receiver sweeping upwards from the default frequency (the started application after a
long press on Right). -/
def sweeping_app : RadioScannerApp :=
  { started_app with scanning := true }

/-- The validity predicate of a device that lacks the 779-928 MHz band: only the two lower
CC1101 bands are accepted. -/
def lower_bands_only (f : Nat) : Bool :=
  (decide (300000000 ≤ f) && decide (f ≤ 348000000)) ||
  (decide (387000000 ≤ f) && decide (f ≤ 464000000))

/-- One state-changing operation of the application. -/
inductive Operation where
  /-- A call of `radio_scanner_process_scanning` with the sampled RSSI. -/
  | scan_tick (sample : ℚ)
  /-- A call of `radio_scanner_update_rssi` (the locked branch of the main loop). -/
  | rssi_tick (sample : ℚ)
  /-- An input event handled by the main loop: manual tune, resume-scan, sensitivity
  nudge, quit, or a settings session. -/
  | input (event : InputEvent) (session : List SettingsEdit)
  /-- A single settings edit. -/
  | edit (e : SettingsEdit)
  /-- A whole main-loop iteration. -/
  | iteration (sample : ℚ) (event : Option InputEvent) (session : List SettingsEdit)

/-- The effect of one operation. -/
def apply_operation (furi_debug : Bool) (is_frequency_valid : Nat → Bool)
    (app : RadioScannerApp) (op : Operation) : RadioScannerApp :=
  match op with
  | .scan_tick sample => radio_scanner_process_scanning furi_debug is_frequency_valid sample app
  | .rssi_tick sample => radio_scanner_update_rssi sample app
  | .input event session => radio_scanner_app_input is_frequency_valid session event app
  | .edit e => settings_edit is_frequency_valid e app
  | .iteration sample event session =>
      radio_scanner_app_iteration furi_debug is_frequency_valid sample event session app

/-- The state after a sequence of operations. -/
def run_operations (furi_debug : Bool) (is_frequency_valid : Nat → Bool)
    (ops : List Operation) (app : RadioScannerApp) : RadioScannerApp :=
  ops.foldl (apply_operation furi_debug is_frequency_valid) app

/-- The range property of the data model: within `[SUBGHZ_FREQUENCY_MIN,
SUBGHZ_FREQUENCY_MAX]` and not strictly inside the dead zone. -/
def frequency_in_range (f : Nat) : Prop :=
  SUBGHZ_FREQUENCY_MIN ≤ f ∧ f ≤ SUBGHZ_FREQUENCY_MAX ∧ ¬ (464000000 < f ∧ f < 779000000)

instance (f : Nat) : Decidable (frequency_in_range f) := by
  unfold frequency_in_range; infer_instance

/-- Whether a tick reaches the frequency step: always without `FURI_DEBUG`, and with it
only when `scanning` is set after the mode transition. -/
def reaches_step (furi_debug : Bool) (sample : ℚ) (app : RadioScannerApp) : Bool :=
  !furi_debug || (mode_transition (radio_scanner_update_rssi sample app)).scanning

/-! ## Field lemmas -/

@[simp] theorem update_rssi_scanning (sample : ℚ) (app : RadioScannerApp) :
    (radio_scanner_update_rssi sample app).scanning = app.scanning := by
  unfold radio_scanner_update_rssi; split <;> rfl

@[simp] theorem update_rssi_frequency (sample : ℚ) (app : RadioScannerApp) :
    (radio_scanner_update_rssi sample app).frequency = app.frequency := by
  unfold radio_scanner_update_rssi; split <;> rfl

@[simp] theorem update_rssi_sensitivity (sample : ℚ) (app : RadioScannerApp) :
    (radio_scanner_update_rssi sample app).sensitivity = app.sensitivity := by
  unfold radio_scanner_update_rssi; split <;> rfl

@[simp] theorem update_rssi_scan_direction (sample : ℚ) (app : RadioScannerApp) :
    (radio_scanner_update_rssi sample app).scan_direction = app.scan_direction := by
  unfold radio_scanner_update_rssi; split <;> rfl

theorem mode_transition_scanning (app : RadioScannerApp) :
    (mode_transition app).scanning = !signal_detected app := by
  unfold mode_transition
  cases hs : signal_detected app <;> cases hc : app.scanning <;> simp [hc]

@[simp] theorem mode_transition_frequency (app : RadioScannerApp) :
    (mode_transition app).frequency = app.frequency := by
  unfold mode_transition
  split <;> split <;> rfl

@[simp] theorem mode_transition_scan_direction (app : RadioScannerApp) :
    (mode_transition app).scan_direction = app.scan_direction := by
  unfold mode_transition
  split <;> split <;> rfl

@[simp] theorem process_scanning_scanning (furi_debug : Bool) (valid : Nat → Bool) (sample : ℚ)
    (app : RadioScannerApp) :
    (radio_scanner_process_scanning furi_debug valid sample app).scanning =
      (mode_transition (radio_scanner_update_rssi sample app)).scanning := by
  unfold radio_scanner_process_scanning
  simp only []
  split <;> rfl

/-- C1: without `FURI_DEBUG` the tick that locks on still steps.  The receiver sweeps up at
310 MHz, the sample -50 dBm exceeds the threshold -85 dBm: the tick clears `scanning` and
moves the frequency to 310.01 MHz; the same tick with `FURI_DEBUG` holds 310 MHz. -/
theorem lock_on_steps_without_furi_debug :
    sweeping_app.scanning = true ∧ (-50 : ℚ) > sweeping_app.sensitivity ∧
    sweeping_app.frequency = 310000000 ∧
    (radio_scanner_process_scanning false cc1101_bands (-50) sweeping_app).scanning = false ∧
    (radio_scanner_process_scanning false cc1101_bands (-50) sweeping_app).frequency = 310010000 ∧
    (radio_scanner_process_scanning true cc1101_bands (-50) sweeping_app).frequency = 310000000 := by
  decide

/-- C3: the detection test is the strict comparison `rssi > sensitivity` (equal values are no
detection), and the tick clears `scanning` when it was set and a signal is detected, sets it
when it was clear and no signal is detected, and keeps it otherwise. -/
theorem mode_transition_edge_triggered (furi_debug : Bool) (is_frequency_valid : Nat → Bool)
    (sample : ℚ) (app : RadioScannerApp) :
    (signal_detected app = true ↔ app.rssi > app.sensitivity) ∧
    signal_detected { app with rssi := app.sensitivity } = false ∧
    (radio_scanner_process_scanning furi_debug is_frequency_valid sample app).scanning =
      (if app.scanning && signal_detected (radio_scanner_update_rssi sample app) then false
       else if !app.scanning && !signal_detected (radio_scanner_update_rssi sample app) then true
       else app.scanning) := by
  refine ⟨by simp [signal_detected], by simp [signal_detected], ?_⟩
  rw [process_scanning_scanning, mode_transition_scanning]
  cases signal_detected (radio_scanner_update_rssi sample app) <;> cases app.scanning <;> rfl

/-! ## The main loop gates the tick on `scanning` -/

/-- C2 as stated fails: the started application is locked, the sample -100 dBm does not
exceed the threshold -85 dBm, no input arrives, and the iteration ends still locked. -/
theorem locked_iteration_does_not_resume :
    ¬ ∀ (furi_debug : Bool) (is_frequency_valid : Nat → Bool) (sample : ℚ)
        (app : RadioScannerApp),
        app.scanning = false → sample ≤ app.sensitivity →
        (radio_scanner_app_iteration furi_debug is_frequency_valid sample none [] app).scanning
          = true := by
  intro h
  have h1 := h true cc1101_bands (-100) started_app (by decide) (by decide)
  revert h1
  decide

/-- C2 (amended): a main-loop iteration that starts locked and receives no input only
refreshes `rssi`: it ends with `scanning = false` and the frequency it started with, for
every sample; a long press on Left or Right in that iteration is what sets `scanning`. -/
theorem locked_iteration_only_samples (furi_debug : Bool) (is_frequency_valid : Nat → Bool)
    (sample : ℚ) (session : List SettingsEdit) (app : RadioScannerApp)
    (hlocked : app.scanning = false) :
    radio_scanner_app_iteration furi_debug is_frequency_valid sample none session app
      = radio_scanner_update_rssi sample app ∧
    (radio_scanner_app_iteration furi_debug is_frequency_valid sample none session app).scanning
      = false ∧
    (radio_scanner_app_iteration furi_debug is_frequency_valid sample none session app).frequency
      = app.frequency ∧
    (radio_scanner_app_iteration furi_debug is_frequency_valid sample
      (some ⟨InputTypeLong, InputKeyLeft⟩) session app).scanning = true ∧
    (radio_scanner_app_iteration furi_debug is_frequency_valid sample
      (some ⟨InputTypeLong, InputKeyRight⟩) session app).scanning = true := by
  have hit : radio_scanner_app_iteration furi_debug is_frequency_valid sample none session app
      = radio_scanner_update_rssi sample app := by
    simp [radio_scanner_app_iteration, hlocked]
  refine ⟨hit, ?_, ?_, ?_, ?_⟩
  · rw [hit, update_rssi_scanning, hlocked]
  · rw [hit, update_rssi_frequency]
  · simp [radio_scanner_app_iteration, radio_scanner_app_input]
  · simp [radio_scanner_app_iteration, radio_scanner_app_input]

theorem locked_iteration_only_samples_at_start :
    started_app.scanning = false ∧ (-100 : ℚ) ≤ started_app.sensitivity ∧
    (radio_scanner_app_iteration false cc1101_bands (-100) none [] started_app).scanning
      = false :=
  ⟨by decide, by decide,
    (locked_iteration_only_samples false cc1101_bands (-100) [] started_app (by decide)).2.1⟩

/-! ## The frequency stays in the supported range -/

theorem adjust_frequency_in_range (is_frequency_valid : Nat → Bool)
    (hport : ∀ f, is_frequency_valid f = true → frequency_in_range f)
    (scan_direction : ScanDirection) (c : Nat) :
    frequency_in_range (adjust_frequency is_frequency_valid scan_direction c) := by
  unfold adjust_frequency
  cases hv : is_frequency_valid c
  · simp only [Bool.not_false, if_true]
    unfold frequency_in_range SUBGHZ_FREQUENCY_MIN SUBGHZ_FREQUENCY_MAX
    split <;> split_ifs <;> omega
  · simpa using hport c hv

theorem process_scanning_frequency (furi_debug : Bool) (is_frequency_valid : Nat → Bool)
    (sample : ℚ) (app : RadioScannerApp) :
    (radio_scanner_process_scanning furi_debug is_frequency_valid sample app).frequency =
      if reaches_step furi_debug sample app then
        adjust_frequency is_frequency_valid app.scan_direction (scan_candidate app)
      else app.frequency := by
  unfold radio_scanner_process_scanning reaches_step
  simp only []
  cases furi_debug <;>
    cases hs : (mode_transition (radio_scanner_update_rssi sample app)).scanning <;>
    simp [scan_candidate]

theorem process_scanning_in_range (furi_debug : Bool) (is_frequency_valid : Nat → Bool)
    (hport : ∀ f, is_frequency_valid f = true → frequency_in_range f)
    (sample : ℚ) (app : RadioScannerApp) (h : frequency_in_range app.frequency) :
    frequency_in_range
      (radio_scanner_process_scanning furi_debug is_frequency_valid sample app).frequency := by
  rw [process_scanning_frequency]
  split
  · exact adjust_frequency_in_range is_frequency_valid hport _ _
  · exact h

theorem apply_frequency_frequency (is_frequency_valid : Nat → Bool) (app : RadioScannerApp) :
    (radio_scanner_apply_frequency is_frequency_valid app).frequency = app.frequency := by
  unfold radio_scanner_apply_frequency; split <;> rfl

theorem freq_presets_in_range (i : Nat) (h : i < FREQ_PRESET_COUNT - 1) :
    frequency_in_range (freq_presets.getD i 0) := by
  have h5 : i < 5 := h
  interval_cases i <;> decide

theorem settings_edit_in_range (is_frequency_valid : Nat → Bool) (e : SettingsEdit)
    (app : RadioScannerApp) (h : frequency_in_range app.frequency) :
    frequency_in_range (settings_edit is_frequency_valid e app).frequency := by
  cases e with
  | Frequency i =>
    simp only [settings_edit, frequency_change_callback]
    split
    · rw [apply_frequency_frequency]
      exact freq_presets_in_range i.val (by assumption)
    · exact h
  | Modulation i =>
    simp only [settings_edit, modulation_change_callback]
    split <;> exact h
  | Direction i => exact h
  | Mode i => exact h
  | Sensitivity i => exact h
  | StepSize i => exact h

theorem settings_session_in_range (is_frequency_valid : Nat → Bool) (session : List SettingsEdit) :
    ∀ app : RadioScannerApp, frequency_in_range app.frequency →
      frequency_in_range
        (session.foldl (fun a e => settings_edit is_frequency_valid e a) app).frequency := by
  induction session with
  | nil => intro app h; exact h
  | cons e rest ih =>
    intro app h
    exact ih _ (settings_edit_in_range is_frequency_valid e app h)

theorem app_input_in_range (is_frequency_valid : Nat → Bool)
    (hport : ∀ f, is_frequency_valid f = true → frequency_in_range f)
    (session : List SettingsEdit) (event : InputEvent) (app : RadioScannerApp)
    (h : frequency_in_range app.frequency) :
    frequency_in_range (radio_scanner_app_input is_frequency_valid session event app).frequency := by
  unfold radio_scanner_app_input
  simp only []
  split_ifs
  all_goals first
    | exact h
    | exact settings_session_in_range is_frequency_valid session app h
    | exact hport _ (by assumption)

theorem app_iteration_in_range (furi_debug : Bool) (is_frequency_valid : Nat → Bool)
    (hport : ∀ f, is_frequency_valid f = true → frequency_in_range f)
    (sample : ℚ) (event : Option InputEvent) (session : List SettingsEdit)
    (app : RadioScannerApp) (h : frequency_in_range app.frequency) :
    frequency_in_range
      (radio_scanner_app_iteration furi_debug is_frequency_valid sample event session
        app).frequency := by
  have htick : frequency_in_range
      (if app.scanning then
        radio_scanner_process_scanning furi_debug is_frequency_valid sample app
      else radio_scanner_update_rssi sample app).frequency := by
    split
    · exact process_scanning_in_range furi_debug is_frequency_valid hport sample app h
    · rw [update_rssi_frequency]; exact h
  unfold radio_scanner_app_iteration
  cases event with
  | none => exact htick
  | some ev => exact app_input_in_range is_frequency_valid hport session ev _ htick

theorem apply_operation_in_range (furi_debug : Bool) (is_frequency_valid : Nat → Bool)
    (hport : ∀ f, is_frequency_valid f = true → frequency_in_range f)
    (op : Operation) (app : RadioScannerApp) (h : frequency_in_range app.frequency) :
    frequency_in_range (apply_operation furi_debug is_frequency_valid app op).frequency := by
  cases op with
  | scan_tick sample =>
    exact process_scanning_in_range furi_debug is_frequency_valid hport sample app h
  | rssi_tick sample =>
    simp only [apply_operation, update_rssi_frequency]; exact h
  | input event session =>
    exact app_input_in_range is_frequency_valid hport session event app h
  | edit e => exact settings_edit_in_range is_frequency_valid e app h
  | iteration sample event session =>
    exact app_iteration_in_range furi_debug is_frequency_valid hport sample event session app h

theorem run_operations_in_range (furi_debug : Bool) (is_frequency_valid : Nat → Bool)
    (hport : ∀ f, is_frequency_valid f = true → frequency_in_range f)
    (ops : List Operation) :
    ∀ app : RadioScannerApp, frequency_in_range app.frequency →
      frequency_in_range (run_operations furi_debug is_frequency_valid ops app).frequency := by
  induction ops with
  | nil => intro app h; exact h
  | cons op rest ih =>
    intro app h
    exact ih _ (apply_operation_in_range furi_debug is_frequency_valid hport op app h)

theorem init_subghz_frequency (is_frequency_valid : Nat → Bool) (device_found : Bool)
    (app app0 : RadioScannerApp)
    (hinit : radio_scanner_init_subghz is_frequency_valid device_found app = some app0) :
    app0.frequency = app.frequency := by
  unfold radio_scanner_init_subghz at hinit
  split at hinit
  · cases hinit
  · simp only [] at hinit
    split at hinit
    · cases hinit
    · cases hinit; rfl

theorem cc1101_bands_in_range (f : Nat) (h : cc1101_bands f = true) : frequency_in_range f := by
  unfold cc1101_bands at h
  simp only [Bool.or_eq_true, Bool.and_eq_true, decide_eq_true_eq] at h
  unfold frequency_in_range SUBGHZ_FREQUENCY_MIN SUBGHZ_FREQUENCY_MAX
  omega

/-- C4: when the device accepts only frequencies in `[300000000, 928000000]` outside the
open dead zone `(464000000, 779000000)`, every state reached from the initialised application
(frequency 310000000) by any sequence of scan ticks, RSSI ticks, input events (manual tunes,
resume-scan, sensitivity nudges, settings sessions), settings edits and whole loop
iterations has its frequency in that range, with or without `FURI_DEBUG`. -/
theorem frequency_range_invariant (furi_debug : Bool) (is_frequency_valid : Nat → Bool)
    (hport : ∀ f, is_frequency_valid f = true → frequency_in_range f)
    (device_found : Bool) (app0 : RadioScannerApp)
    (hinit : radio_scanner_init_subghz is_frequency_valid device_found radio_scanner_app_alloc
      = some app0)
    (ops : List Operation) :
    app0.frequency = 310000000 ∧
    300000000 ≤ (run_operations furi_debug is_frequency_valid ops app0).frequency ∧
    (run_operations furi_debug is_frequency_valid ops app0).frequency ≤ 928000000 ∧
    ¬ (464000000 < (run_operations furi_debug is_frequency_valid ops app0).frequency ∧
       (run_operations furi_debug is_frequency_valid ops app0).frequency < 779000000) := by
  have h0 : app0.frequency = 310000000 :=
    init_subghz_frequency is_frequency_valid device_found _ app0 hinit
  have hstart : frequency_in_range app0.frequency := by rw [h0]; decide
  exact ⟨h0, run_operations_in_range furi_debug is_frequency_valid hport ops app0 hstart⟩

theorem frequency_range_invariant_sweep :
    300000000 ≤ (run_operations false cc1101_bands
      [.input ⟨InputTypeLong, InputKeyLeft⟩ [], .iteration (-100) none [],
       .iteration (-50) (some ⟨InputTypeShort, InputKeyRight⟩) [],
       .edit (.Frequency 3), .scan_tick (-100)] started_app).frequency ∧
    (run_operations false cc1101_bands
      [.input ⟨InputTypeLong, InputKeyLeft⟩ [], .iteration (-100) none [],
       .iteration (-50) (some ⟨InputTypeShort, InputKeyRight⟩) [],
       .edit (.Frequency 3), .scan_tick (-100)] started_app).frequency ≤ 928000000 :=
  have h := frequency_range_invariant false cc1101_bands cc1101_bands_in_range true started_app
    (by decide)
    [.input ⟨InputTypeLong, InputKeyLeft⟩ [], .iteration (-100) none [],
     .iteration (-50) (some ⟨InputTypeShort, InputKeyRight⟩) [],
     .edit (.Frequency 3), .scan_tick (-100)]
  ⟨h.2.1, h.2.2.1⟩

/-! ## Edge and dead-zone correction -/

theorem u32_add_of_lt (a b : Nat) (h : a + b < UINT32_SIZE) : u32_add a b = a + b := by
  unfold u32_add; exact Nat.mod_eq_of_lt h

theorem u32_sub_of_le (a b : Nat) (ha : a < UINT32_SIZE) (hb : b ≤ a) : u32_sub a b = a - b := by
  unfold u32_sub UINT32_SIZE at *
  omega

theorem scan_candidate_up (app : RadioScannerApp) (h : app.scan_direction = ScanDirectionUp) :
    scan_candidate app = u32_add app.frequency SUBGHZ_FREQUENCY_STEP := by
  simp [scan_candidate, h]

theorem scan_candidate_down (app : RadioScannerApp)
    (h : app.scan_direction = ScanDirectionDown) :
    scan_candidate app = u32_sub app.frequency SUBGHZ_FREQUENCY_STEP := by
  simp [scan_candidate, h]

/-- C5: on a tick that reaches the step with direction Up and a candidate
`frequency + 10000` (in `uint32_t` arithmetic) that the device rejects, the committed
frequency is 387000000 if the candidate is below 387000000, else 779000000 if it is below
779000000, else 300000000 if it is above 928000000 (and the candidate itself in the
remaining case); from 928000000 the tick commits 300000000 and from 463990000 it commits
779000000. -/
theorem scan_up_edge_correction (furi_debug : Bool) (is_frequency_valid : Nat → Bool)
    (sample : ℚ) (app : RadioScannerApp)
    (hdir : app.scan_direction = ScanDirectionUp)
    (hstep : reaches_step furi_debug sample app = true)
    (hinvalid : is_frequency_valid (u32_add app.frequency 10000) = false) :
    (radio_scanner_process_scanning furi_debug is_frequency_valid sample app).frequency =
      (if u32_add app.frequency 10000 < 387000000 then 387000000
       else if u32_add app.frequency 10000 < 779000000 then 779000000
       else if u32_add app.frequency 10000 > 928000000 then 300000000
       else u32_add app.frequency 10000) ∧
    (app.frequency = 928000000 →
      u32_add app.frequency 10000 = 928010000 ∧
      (radio_scanner_process_scanning furi_debug is_frequency_valid sample app).frequency
        = 300000000) ∧
    (app.frequency = 463990000 →
      u32_add app.frequency 10000 = 464000000 ∧
      (radio_scanner_process_scanning furi_debug is_frequency_valid sample app).frequency
        = 779000000) := by
  have hfreq : (radio_scanner_process_scanning furi_debug is_frequency_valid sample app).frequency =
      (if u32_add app.frequency 10000 < 387000000 then 387000000
       else if u32_add app.frequency 10000 < 779000000 then 779000000
       else if u32_add app.frequency 10000 > 928000000 then 300000000
       else u32_add app.frequency 10000) := by
    rw [process_scanning_frequency, hstep, if_pos rfl, scan_candidate_up app hdir, hdir]
    simp [adjust_frequency, hinvalid, SUBGHZ_FREQUENCY_STEP, SUBGHZ_FREQUENCY_MAX, SUBGHZ_FREQUENCY_MIN]
  refine ⟨hfreq, ?_, ?_⟩
  · intro hf
    rw [hfreq, hf]
    decide
  · intro hf
    rw [hfreq, hf]
    decide

theorem scan_up_edge_correction_wrap :
    (radio_scanner_process_scanning true cc1101_bands (-100)
      { sweeping_app with frequency := 928000000 }).frequency = 300000000 :=
  ((scan_up_edge_correction true cc1101_bands (-100) { sweeping_app with frequency := 928000000 }
    (by decide) (by decide) (by decide)).2.1 (by decide)).2

/-- C6: on a tick that reaches the step with direction Down and a candidate
`frequency - 10000` (in `uint32_t` arithmetic) that the device rejects, the committed
frequency is 464000000 if the candidate is above 464000000, else 348000000 if it is above
348000000, else 928000000 if it is below 300000000 (and the candidate itself in the
remaining case); from 300000000 the candidate is 299990000 and the tick commits
928000000. -/
theorem scan_down_edge_correction (furi_debug : Bool) (is_frequency_valid : Nat → Bool)
    (sample : ℚ) (app : RadioScannerApp)
    (hdir : app.scan_direction = ScanDirectionDown)
    (hstep : reaches_step furi_debug sample app = true)
    (hinvalid : is_frequency_valid (u32_sub app.frequency 10000) = false) :
    (radio_scanner_process_scanning furi_debug is_frequency_valid sample app).frequency =
      (if u32_sub app.frequency 10000 > 464000000 then 464000000
       else if u32_sub app.frequency 10000 > 348000000 then 348000000
       else if u32_sub app.frequency 10000 < 300000000 then 928000000
       else u32_sub app.frequency 10000) ∧
    (app.frequency = 300000000 →
      u32_sub app.frequency 10000 = 299990000 ∧
      (radio_scanner_process_scanning furi_debug is_frequency_valid sample app).frequency
        = 928000000) := by
  have hfreq : (radio_scanner_process_scanning furi_debug is_frequency_valid sample app).frequency =
      (if u32_sub app.frequency 10000 > 464000000 then 464000000
       else if u32_sub app.frequency 10000 > 348000000 then 348000000
       else if u32_sub app.frequency 10000 < 300000000 then 928000000
       else u32_sub app.frequency 10000) := by
    rw [process_scanning_frequency, hstep, if_pos rfl, scan_candidate_down app hdir, hdir]
    simp [adjust_frequency, hinvalid, SUBGHZ_FREQUENCY_STEP, SUBGHZ_FREQUENCY_MAX, SUBGHZ_FREQUENCY_MIN]
  refine ⟨hfreq, ?_⟩
  intro hf
  rw [hfreq, hf]
  decide

theorem scan_down_edge_correction_wrap :
    (radio_scanner_process_scanning true cc1101_bands (-100)
      { sweeping_app with frequency := 300000000,
                          scan_direction := ScanDirectionDown }).frequency = 928000000 :=
  ((scan_down_edge_correction true cc1101_bands (-100)
    { sweeping_app with frequency := 300000000, scan_direction := ScanDirectionDown }
    (by decide) (by decide) (by decide)).2 (by decide)).2

/-- C7: for every frequency, direction and validity predicate, a candidate the device
accepts passes through the remap unchanged, and a tick that reaches the step commits
exactly that candidate: `frequency + 10000` for Up, `frequency - 10000` for Down, in
`uint32_t` arithmetic. -/
theorem valid_candidate_committed_unchanged (furi_debug : Bool)
    (is_frequency_valid : Nat → Bool) (sample : ℚ) (app : RadioScannerApp)
    (hstep : reaches_step furi_debug sample app = true)
    (hvalid : is_frequency_valid (scan_candidate app) = true) :
    adjust_frequency is_frequency_valid app.scan_direction (scan_candidate app)
      = scan_candidate app ∧
    (radio_scanner_process_scanning furi_debug is_frequency_valid sample app).frequency
      = scan_candidate app ∧
    scan_candidate app =
      (if app.scan_direction = ScanDirectionUp then u32_add app.frequency 10000
       else u32_sub app.frequency 10000) := by
  have hid : adjust_frequency is_frequency_valid app.scan_direction (scan_candidate app)
      = scan_candidate app := by
    simp [adjust_frequency, hvalid]
  refine ⟨hid, ?_, rfl⟩
  rw [process_scanning_frequency, hstep, if_pos rfl, hid]

theorem valid_candidate_committed_unchanged_at_start :
    (radio_scanner_process_scanning true cc1101_bands (-100) sweeping_app).frequency
      = 310010000 :=
  (valid_candidate_committed_unchanged true cc1101_bands (-100) sweeping_app
    (by decide) (by decide)).2.1

/-! ## Manual tune -/

theorem app_input_short_left (is_frequency_valid : Nat → Bool) (session : List SettingsEdit)
    (app : RadioScannerApp) :
    radio_scanner_app_input is_frequency_valid session ⟨InputTypeShort, InputKeyLeft⟩ app =
      if is_frequency_valid (u32_sub app.frequency app.frequency_step) then
        { app with scanning := false
                   frequency := u32_sub app.frequency app.frequency_step
                   tuned_frequency := u32_sub app.frequency app.frequency_step }
      else
        { app with scanning := false } := by
  simp [radio_scanner_app_input]

theorem app_input_short_right (is_frequency_valid : Nat → Bool) (session : List SettingsEdit)
    (app : RadioScannerApp) :
    radio_scanner_app_input is_frequency_valid session ⟨InputTypeShort, InputKeyRight⟩ app =
      if is_frequency_valid (u32_add app.frequency app.frequency_step) then
        { app with scanning := false
                   frequency := u32_add app.frequency app.frequency_step
                   tuned_frequency := u32_add app.frequency app.frequency_step }
      else
        { app with scanning := false } := by
  simp [radio_scanner_app_input]

/-- C8: a short Left (Right) press whose `new_frequency = frequency - frequency_step`
(`frequency + frequency_step`), computed in `uint32_t` arithmetic with the configurable
step, is accepted by the device ends with `scanning = false` and `frequency = new_frequency`;
when the step fits (`frequency_step <= frequency`, resp. no overflow) that is the plain
difference (sum); and whatever the device answers, the press leaves `scanning = false`. -/
theorem manual_tune_locks_and_retunes (is_frequency_valid : Nat → Bool)
    (session : List SettingsEdit) (app : RadioScannerApp) :
    (is_frequency_valid (u32_sub app.frequency app.frequency_step) = true →
      (radio_scanner_app_input is_frequency_valid session ⟨InputTypeShort, InputKeyLeft⟩
        app).scanning = false ∧
      (radio_scanner_app_input is_frequency_valid session ⟨InputTypeShort, InputKeyLeft⟩
        app).frequency = u32_sub app.frequency app.frequency_step) ∧
    (is_frequency_valid (u32_add app.frequency app.frequency_step) = true →
      (radio_scanner_app_input is_frequency_valid session ⟨InputTypeShort, InputKeyRight⟩
        app).scanning = false ∧
      (radio_scanner_app_input is_frequency_valid session ⟨InputTypeShort, InputKeyRight⟩
        app).frequency = u32_add app.frequency app.frequency_step) ∧
    (app.frequency < UINT32_SIZE → app.frequency_step ≤ app.frequency →
      u32_sub app.frequency app.frequency_step = app.frequency - app.frequency_step) ∧
    (app.frequency + app.frequency_step < UINT32_SIZE →
      u32_add app.frequency app.frequency_step = app.frequency + app.frequency_step) ∧
    (radio_scanner_app_input is_frequency_valid session ⟨InputTypeShort, InputKeyLeft⟩
      app).scanning = false ∧
    (radio_scanner_app_input is_frequency_valid session ⟨InputTypeShort, InputKeyRight⟩
      app).scanning = false := by
  refine ⟨?_, ?_, u32_sub_of_le _ _, u32_add_of_lt _ _, ?_, ?_⟩
  · intro hv
    rw [app_input_short_left, if_pos hv]
    exact ⟨rfl, rfl⟩
  · intro hv
    rw [app_input_short_right, if_pos hv]
    exact ⟨rfl, rfl⟩
  · rw [app_input_short_left]
    split <;> rfl
  · rw [app_input_short_right]
    split <;> rfl

theorem manual_tune_uses_frequency_step :
    (radio_scanner_app_input cc1101_bands [] ⟨InputTypeShort, InputKeyRight⟩
      { sweeping_app with frequency_step := 25000 }).scanning = false ∧
    (radio_scanner_app_input cc1101_bands [] ⟨InputTypeShort, InputKeyRight⟩
      { sweeping_app with frequency_step := 25000 }).frequency = 310025000 :=
  have h := (manual_tune_locks_and_retunes cc1101_bands []
    { sweeping_app with frequency_step := 25000 }).2.1 (by decide)
  ⟨h.1, h.2.trans (by decide)⟩

/-- C9 as stated fails: sweeping at 300000000 with step 10000, a short Left press asks for
299990000, which the device rejects; the press still clears `scanning`, so the state is not
the one before the press. -/
theorem invalid_manual_tune_changes_scanning :
    ¬ ∀ (is_frequency_valid : Nat → Bool) (session : List SettingsEdit) (app : RadioScannerApp),
        is_frequency_valid (u32_sub app.frequency app.frequency_step) = false →
        radio_scanner_app_input is_frequency_valid session ⟨InputTypeShort, InputKeyLeft⟩ app
          = app := by
  intro h
  have h1 := h cc1101_bands [] { sweeping_app with frequency := 300000000 } (by decide)
  have h2 := congrArg RadioScannerApp.scanning h1
  revert h2
  decide

/-- C9 (amended): a short Left or Right press whose `new_frequency` the device rejects
leaves every field except `scanning` unchanged and sets `scanning = false`; the state is
the one before the press exactly when the receiver was already locked. -/
theorem invalid_manual_tune_only_locks (is_frequency_valid : Nat → Bool)
    (session : List SettingsEdit) (app : RadioScannerApp) :
    (is_frequency_valid (u32_sub app.frequency app.frequency_step) = false →
      radio_scanner_app_input is_frequency_valid session ⟨InputTypeShort, InputKeyLeft⟩ app
        = { app with scanning := false }) ∧
    (is_frequency_valid (u32_add app.frequency app.frequency_step) = false →
      radio_scanner_app_input is_frequency_valid session ⟨InputTypeShort, InputKeyRight⟩ app
        = { app with scanning := false }) ∧
    ({ app with scanning := false } = app ↔ app.scanning = false) := by
  refine ⟨?_, ?_, ?_⟩
  · intro hv
    rw [app_input_short_left, hv]
    rfl
  · intro hv
    rw [app_input_short_right, hv]
    rfl
  · constructor
    · intro h
      have := congrArg RadioScannerApp.scanning h
      exact this.symm
    · intro h
      cases app
      simp_all

theorem invalid_manual_tune_only_locks_at_edge :
    radio_scanner_app_input cc1101_bands [] ⟨InputTypeShort, InputKeyLeft⟩
      { sweeping_app with frequency := 300000000 }
      = { sweeping_app with frequency := 300000000, scanning := false } :=
  (invalid_manual_tune_only_locks cc1101_bands []
    { sweeping_app with frequency := 300000000 }).1 (by decide)

/-! ## Settings frequency edit -/

/-- C10: `frequency_change_callback` leaves the whole state, so `frequency`, as it is for
index 5 ("Custom"); for the indices 0 to 4 it sets `frequency` to 310000000, 315000000,
433920000, 868000000 and 915000000; and for every index `running`, `frequency_step`, `rssi`,
`sensitivity`, `scanning`, `scan_direction` and `modulation` keep their values. -/
theorem frequency_change_callback_table (is_frequency_valid : Nat → Bool)
    (app : RadioScannerApp) :
    frequency_change_callback is_frequency_valid 5 app = app ∧
    (frequency_change_callback is_frequency_valid 0 app).frequency = 310000000 ∧
    (frequency_change_callback is_frequency_valid 1 app).frequency = 315000000 ∧
    (frequency_change_callback is_frequency_valid 2 app).frequency = 433920000 ∧
    (frequency_change_callback is_frequency_valid 3 app).frequency = 868000000 ∧
    (frequency_change_callback is_frequency_valid 4 app).frequency = 915000000 ∧
    ∀ index : Fin 6,
      (frequency_change_callback is_frequency_valid index app).running = app.running ∧
      (frequency_change_callback is_frequency_valid index app).frequency_step
        = app.frequency_step ∧
      (frequency_change_callback is_frequency_valid index app).rssi = app.rssi ∧
      (frequency_change_callback is_frequency_valid index app).sensitivity = app.sensitivity ∧
      (frequency_change_callback is_frequency_valid index app).scanning = app.scanning ∧
      (frequency_change_callback is_frequency_valid index app).scan_direction
        = app.scan_direction ∧
      (frequency_change_callback is_frequency_valid index app).modulation = app.modulation := by
  refine ⟨rfl, ?_, ?_, ?_, ?_, ?_, ?_⟩
  · exact apply_frequency_frequency _ _
  · exact apply_frequency_frequency _ _
  · exact apply_frequency_frequency _ _
  · exact apply_frequency_frequency _ _
  · exact apply_frequency_frequency _ _
  · intro index
    unfold frequency_change_callback radio_scanner_apply_frequency
    split
    · split <;> exact ⟨rfl, rfl, rfl, rfl, rfl, rfl, rfl⟩
    · exact ⟨rfl, rfl, rfl, rfl, rfl, rfl, rfl⟩

/-! ## Lock-on in the two build configurations -/

/-- With `FURI_DEBUG` the tick that locks on returns before the step: `scanning` is cleared
and the frequency is the one before the tick. -/
theorem lock_on_holds_frequency_with_furi_debug (is_frequency_valid : Nat → Bool)
    (sample : ℚ) (app : RadioScannerApp)
    (hsignal : signal_detected (radio_scanner_update_rssi sample app) = true) :
    (radio_scanner_process_scanning true is_frequency_valid sample app).scanning = false ∧
    (radio_scanner_process_scanning true is_frequency_valid sample app).frequency
      = app.frequency := by
  constructor
  · rw [process_scanning_scanning, mode_transition_scanning, hsignal]
    rfl
  · rw [process_scanning_frequency]
    simp [reaches_step, mode_transition_scanning, hsignal]

/-- Without `FURI_DEBUG` the tick that locks on clears `scanning` and still commits the
(remapped) candidate. -/
theorem lock_on_steps_in_release_build (is_frequency_valid : Nat → Bool)
    (sample : ℚ) (app : RadioScannerApp)
    (hsignal : signal_detected (radio_scanner_update_rssi sample app) = true) :
    (radio_scanner_process_scanning false is_frequency_valid sample app).scanning = false ∧
    (radio_scanner_process_scanning false is_frequency_valid sample app).frequency
      = adjust_frequency is_frequency_valid app.scan_direction (scan_candidate app) := by
  constructor
  · rw [process_scanning_scanning, mode_transition_scanning, hsignal]
    rfl
  · rw [process_scanning_frequency]
    simp [reaches_step]

/-! ## Settings frequency edit on a frequency the device rejects -/

theorem frequency_change_callback_invalid (is_frequency_valid : Nat → Bool) (index : Fin 6)
    (app : RadioScannerApp) (hindex : index.val < FREQ_PRESET_COUNT - 1)
    (hinvalid : is_frequency_valid (freq_presets.getD index.val 0) = false) :
    frequency_change_callback is_frequency_valid index app
      = { app with frequency := freq_presets.getD index.val 0 } := by
  unfold frequency_change_callback radio_scanner_apply_frequency
  rw [if_pos hindex]
  simp only [hinvalid, Bool.and_false, Bool.false_eq_true, if_false]

/-- C11 fails on the code: the started application is tuned to 310000000 and the device
rejects the table entry 868000000 of index 3; `frequency_change_callback` still stores
868000000 in `frequency`, while the device stays tuned to 310000000 and every other field
keeps its value. -/
theorem invalid_settings_frequency_is_stored :
    lower_bands_only (freq_presets.getD 3 0) = false ∧
    started_app.frequency = 310000000 ∧
    (frequency_change_callback lower_bands_only 3 started_app).frequency = 868000000 ∧
    (frequency_change_callback lower_bands_only 3 started_app).tuned_frequency = 310000000 ∧
    frequency_change_callback lower_bands_only 3 started_app
      = { started_app with frequency := 868000000 } := by
  decide

/-! ## The scan step is the fixed 10 kHz -/

theorem process_scanning_frequency_step (furi_debug : Bool) (is_frequency_valid : Nat → Bool)
    (sample : ℚ) (app : RadioScannerApp) (step : Nat) :
    (radio_scanner_process_scanning furi_debug is_frequency_valid sample
      { app with frequency_step := step }).frequency
      = (radio_scanner_process_scanning furi_debug is_frequency_valid sample app).frequency := by
  have hreach : reaches_step furi_debug sample { app with frequency_step := step }
      = reaches_step furi_debug sample app := by
    unfold reaches_step
    rw [mode_transition_scanning, mode_transition_scanning]
    unfold signal_detected radio_scanner_update_rssi
    cases app.radio_device <;> rfl
  rw [process_scanning_frequency, process_scanning_frequency, hreach]
  rfl

/-- C12: two states that differ only in `frequency_step` commit the same frequency on a
tick of `radio_scanner_process_scanning` with the same sample and validity predicate, with
or without `FURI_DEBUG`; and on a tick that reaches the step with a candidate the device
accepts, the committed frequency is `frequency + 10000` for Up and `frequency - 10000` for
Down in `uint32_t` arithmetic, which is the plain sum (difference) when nothing wraps. -/
theorem scan_tick_ignores_frequency_step (furi_debug : Bool) (is_frequency_valid : Nat → Bool)
    (sample : ℚ) (a b : RadioScannerApp)
    (hdiffer : { a with frequency_step := b.frequency_step } = b) :
    (radio_scanner_process_scanning furi_debug is_frequency_valid sample a).frequency
      = (radio_scanner_process_scanning furi_debug is_frequency_valid sample b).frequency ∧
    (reaches_step furi_debug sample a = true → is_frequency_valid (scan_candidate a) = true →
      (a.scan_direction = ScanDirectionUp →
        (radio_scanner_process_scanning furi_debug is_frequency_valid sample a).frequency
          = u32_add a.frequency 10000 ∧
        (a.frequency + 10000 < UINT32_SIZE →
          (radio_scanner_process_scanning furi_debug is_frequency_valid sample a).frequency
            = a.frequency + 10000)) ∧
      (a.scan_direction = ScanDirectionDown →
        (radio_scanner_process_scanning furi_debug is_frequency_valid sample a).frequency
          = u32_sub a.frequency 10000 ∧
        (a.frequency < UINT32_SIZE → 10000 ≤ a.frequency →
          (radio_scanner_process_scanning furi_debug is_frequency_valid sample a).frequency
            = a.frequency - 10000))) := by
  constructor
  · have h := process_scanning_frequency_step furi_debug is_frequency_valid sample a
      b.frequency_step
    rw [hdiffer] at h
    exact h.symm
  · intro hstep hvalid
    have hcommit :
        (radio_scanner_process_scanning furi_debug is_frequency_valid sample a).frequency
          = scan_candidate a := by
      rw [process_scanning_frequency, hstep, if_pos rfl]
      simp [adjust_frequency, hvalid]
    constructor
    · intro hdir
      have hc : scan_candidate a = u32_add a.frequency 10000 := scan_candidate_up a hdir
      refine ⟨hcommit.trans hc, ?_⟩
      intro hfit
      rw [hcommit, hc]
      exact u32_add_of_lt _ _ hfit
    · intro hdir
      have hc : scan_candidate a = u32_sub a.frequency 10000 := scan_candidate_down a hdir
      refine ⟨hcommit.trans hc, ?_⟩
      intro hlt hle
      rw [hcommit, hc]
      exact u32_sub_of_le _ _ hlt hle

theorem scan_tick_ignores_frequency_step_at_start :
    (radio_scanner_process_scanning false cc1101_bands (-100) sweeping_app).frequency
      = (radio_scanner_process_scanning false cc1101_bands (-100)
          { sweeping_app with frequency_step := 1000000 }).frequency ∧
    (radio_scanner_process_scanning false cc1101_bands (-100) sweeping_app).frequency
      = 310000000 + 10000 :=
  have h := scan_tick_ignores_frequency_step false cc1101_bands (-100) sweeping_app
    { sweeping_app with frequency_step := 1000000 } (by decide)
  ⟨h.1, ((h.2 (by decide) (by decide)).1 (by decide)).2 (by decide)⟩

/-! ## Frequency preselection in the settings menu -/

theorem setup_settings_menu_freq_index_eq (app : RadioScannerApp) :
    radio_scanner_setup_settings_menu_freq_index app =
      if app.frequency = 310000000 then 0
      else if app.frequency = 315000000 then 1
      else if app.frequency = 433920000 then 2
      else if app.frequency = 868000000 then 3
      else if app.frequency = 915000000 then 4
      else 5 := by
  have hrange : List.range (FREQ_PRESET_COUNT - 1) = [0, 1, 2, 3, 4] := by decide
  have h0 : freq_presets.getD 0 0 = 310000000 := rfl
  have h1 : freq_presets.getD 1 0 = 315000000 := rfl
  have h2 : freq_presets.getD 2 0 = 433920000 := rfl
  have h3 : freq_presets.getD 3 0 = 868000000 := rfl
  have h4 : freq_presets.getD 4 0 = 915000000 := rfl
  unfold radio_scanner_setup_settings_menu_freq_index
  rw [hrange]
  simp only [List.find?, h0, h1, h2, h3, h4]
  by_cases c0 : app.frequency = 310000000
  · simp [c0, FREQ_PRESET_COUNT]
  by_cases c1 : app.frequency = 315000000
  · simp [c1, FREQ_PRESET_COUNT]
  by_cases c2 : app.frequency = 433920000
  · simp [c2, FREQ_PRESET_COUNT]
  by_cases c3 : app.frequency = 868000000
  · simp [c3, FREQ_PRESET_COUNT]
  by_cases c4 : app.frequency = 915000000
  · simp [c4, FREQ_PRESET_COUNT]
  simp [c0, c1, c2, c3, c4, FREQ_PRESET_COUNT]

theorem freq_presets_getD_cases (i : Nat) (h : i < 5) :
    (i = 0 ∧ freq_presets.getD i 0 = 310000000) ∨
    (i = 1 ∧ freq_presets.getD i 0 = 315000000) ∨
    (i = 2 ∧ freq_presets.getD i 0 = 433920000) ∨
    (i = 3 ∧ freq_presets.getD i 0 = 868000000) ∨
    (i = 4 ∧ freq_presets.getD i 0 = 915000000) := by
  interval_cases i <;> decide

/-- C13: the index `radio_scanner_setup_settings_menu` preselects for the "Frequency" item
is the smallest `i` in 0..4 with `freq_presets[i] = frequency` when there is one, and 5
("Custom") when there is none; it is a legal index of the item, and
`frequency_change_callback` at that index leaves `frequency` as it is. -/
theorem settings_menu_frequency_preselection (is_frequency_valid : Nat → Bool)
    (app : RadioScannerApp) :
    (∀ i, i < 5 → freq_presets.getD i 0 = app.frequency →
      (∀ j, j < i → freq_presets.getD j 0 ≠ app.frequency) →
      radio_scanner_setup_settings_menu_freq_index app = i) ∧
    ((∀ i, i < 5 → freq_presets.getD i 0 ≠ app.frequency) →
      radio_scanner_setup_settings_menu_freq_index app = 5) ∧
    radio_scanner_setup_settings_menu_freq_index app < 6 ∧
    (∀ index : Fin 6, index.val = radio_scanner_setup_settings_menu_freq_index app →
      (frequency_change_callback is_frequency_valid index app).frequency = app.frequency) := by
  have hidx := setup_settings_menu_freq_index_eq app
  refine ⟨?_, ?_, ?_, ?_⟩
  · intro i hi hmatch _
    rw [hidx]
    rcases freq_presets_getD_cases i hi with h | h | h | h | h <;>
      obtain ⟨hi', hv⟩ := h <;>
      rw [hv] at hmatch <;>
      simp [← hmatch, hi']
  · intro hnone
    rw [hidx]
    have n0 := hnone 0 (by decide)
    have n1 := hnone 1 (by decide)
    have n2 := hnone 2 (by decide)
    have n3 := hnone 3 (by decide)
    have n4 := hnone 4 (by decide)
    have e0 : freq_presets.getD 0 0 = 310000000 := rfl
    have e1 : freq_presets.getD 1 0 = 315000000 := rfl
    have e2 : freq_presets.getD 2 0 = 433920000 := rfl
    have e3 : freq_presets.getD 3 0 = 868000000 := rfl
    have e4 : freq_presets.getD 4 0 = 915000000 := rfl
    rw [e0] at n0
    rw [e1] at n1
    rw [e2] at n2
    rw [e3] at n3
    rw [e4] at n4
    rw [if_neg (Ne.symm n0), if_neg (Ne.symm n1), if_neg (Ne.symm n2), if_neg (Ne.symm n3),
      if_neg (Ne.symm n4)]
  · rw [hidx]
    split_ifs <;> decide
  · intro index hsel
    unfold frequency_change_callback
    split
    · rename_i hlt
      rw [apply_frequency_frequency]
      show freq_presets.getD index.val 0 = app.frequency
      have hlt5 : index.val < 5 := hlt
      rw [hidx] at hsel
      rcases freq_presets_getD_cases index.val hlt5 with h | h | h | h | h <;>
        obtain ⟨hi', hv⟩ := h <;>
        rw [hv] <;>
        rw [hi'] at hsel <;>
        split_ifs at hsel <;>
        first
          | (symm; assumption)
          | omega
    · rfl

theorem settings_menu_frequency_preselection_at_868 :
    radio_scanner_setup_settings_menu_freq_index { started_app with frequency := 868000000 } = 3 ∧
    (frequency_change_callback cc1101_bands 3
      { started_app with frequency := 868000000 }).frequency = 868000000 :=
  have h := settings_menu_frequency_preselection cc1101_bands
    { started_app with frequency := 868000000 }
  ⟨h.1 3 (by decide) (by decide) (by decide), h.2.2.2 3 (by decide)⟩

theorem settings_menu_frequency_preselection_custom :
    radio_scanner_setup_settings_menu_freq_index { started_app with frequency := 433000000 } = 5 ∧
    (frequency_change_callback cc1101_bands 5
      { started_app with frequency := 433000000 }).frequency = 433000000 := by
  decide

end RadioScanner
